import Mathlib

/-!
Shallow embedding of `src/app.py`, a Flask credential relay.

The handler `get_ephemeral_token` (app.py lines 22-86) is modelled as a pure
function of: the configured secret (`OPENAI_API_KEY`, an optional environment
string), the inbound HTTP method, and the behavior of the upstream service
(what `requests.post` and the subsequent `response.json()` do).  The function
returns the HTTP response together with the list of outbound calls attempted,
so that short-circuit properties ("no outbound call attempted") are visible.

Python exceptions raised during the `try` block are modelled by a class tag
matching the handler's `except` chain:
  `timeoutExc`    = `requests.exceptions.Timeout`
  `connectionErrorExc` = `requests.exceptions.ConnectionError`
  `requestExc`    = any other `requests.exceptions.RequestException`
  `otherExc`      = any other `Exception`
The tags are disjoint (each names the first matching `except` clause), so the
chain order of app.py lines 75-86 is captured by a total match.

`response.json()` (app.py line 63) may fail on a non-JSON body; which
exception class the installed `requests` library raises there is not fixed by
the repository, so the failure carries an abstract class tag.
-/

/-- JSON values, the shape of request/response bodies. -/
inductive Json where
  | null
  | bool (b : Bool)
  | num (n : Int)
  | str (s : String)
  | arr (elems : List Json)
  | obj (fields : List (String × Json))

/-- Look up a key among the fields of a JSON object. -/
def Json.lookupKey : Json → String → Option Json
  | Json.obj fields, k => fields.lookup k
  | _, _ => none

/-- Whether a JSON value is an object having the given key. -/
def Json.hasKey (j : Json) (k : String) : Bool :=
  (j.lookupKey k).isSome

/-- An HTTP response body: empty (Flask `return '', 200`) or JSON (`jsonify`). -/
inductive Body where
  | empty
  | json (j : Json)

/-- Whether a response body is a JSON object carrying an `error` field. -/
def Body.hasErrorKey : Body → Bool
  | Body.empty => false
  | Body.json j => j.hasKey "error"

/-- An HTTP response: status code and body. -/
structure HttpResponse where
  status : Nat
  body : Body

/-- Inbound HTTP methods relevant to the app's routes. -/
inductive Method where
  | GET
  | POST
  | OPTIONS
  | OTHER
deriving DecidableEq, Repr

/-- Python truthiness of `OPENAI_API_KEY` (app.py line 30 `if not OPENAI_API_KEY`):
`os.getenv` yields `None` when unset; the empty string is also falsy. -/
def truthy : Option String → Bool
  | none => false
  | some s => !(s == "")

/-- Class of a Python exception, named by the first matching clause of the
`except` chain at app.py lines 75-86. -/
inductive ExcClass where
  | timeoutExc
  | connectionErrorExc
  | requestExc
  | otherExc
deriving DecidableEq, Repr

/-- Result of `response.json()` (app.py line 63): a parsed JSON value, or an
exception of some class with a message. -/
inductive JsonParse where
  | ok (j : Json)
  | fail (cls : ExcClass) (msg : String)

/-- Behavior of the upstream service for one outbound call: either
`requests.post` returns a response (status code, body text, and what
`response.json()` would yield on it), or it raises an exception. -/
inductive UpstreamBehavior where
  | respond (status : Nat) (text : String) (parsed : JsonParse)
  | raised (cls : ExcClass) (msg : String)

/-- One outbound HTTP call as issued by `requests.post` (app.py lines 49-57). -/
structure OutboundCall where
  url : String
  authorization : String
  contentType : String
  payload : Json
  timeout : Nat

/-- The fixed upstream endpoint (app.py line 50). -/
def mintUrl : String := "https://api.openai.com/v1/realtime/client_secrets"

/-- The hard-coded `session_config` payload (app.py lines 33-44). -/
def session_config : Json :=
  Json.obj [("session", Json.obj
    [ ("type", Json.str "realtime"),
      ("model", Json.str "gpt-realtime"),
      ("audio", Json.obj [("output", Json.obj [("voice", Json.str "marin")])]),
      ("instructions", Json.str
        "You are a helpful voice assistant. Be conversational and friendly.")])]

/-- The outbound call issued for a given key (app.py lines 49-57). -/
def mkCall (key : String) : OutboundCall :=
  { url := mintUrl
    authorization := "Bearer " ++ key
    contentType := "application/json"
    payload := session_config
    timeout := 30 }

/-- The 500 response when the secret is missing (app.py line 31). -/
def configErrorResponse : HttpResponse :=
  ⟨500, Body.json (Json.obj [("error", Json.str "OPENAI_API_KEY not configured")])⟩

/-- The `except` chain (app.py lines 75-86), dispatching on exception class. -/
def exceptChain : ExcClass → String → HttpResponse
  | ExcClass.timeoutExc, _ =>
      ⟨500, Body.json (Json.obj [("error", Json.str "Request timeout")])⟩
  | ExcClass.connectionErrorExc, _ =>
      ⟨500, Body.json (Json.obj [("error", Json.str "Connection error")])⟩
  | ExcClass.requestExc, msg =>
      ⟨500, Body.json (Json.obj [("error", Json.str ("Request failed: " ++ msg))])⟩
  | ExcClass.otherExc, msg =>
      ⟨500, Body.json (Json.obj [("error", Json.str ("Unexpected error: " ++ msg))])⟩

/-- The `/api/token` handler (app.py lines 22-86).  Returns the HTTP response
and the list of outbound calls attempted during the request. -/
def get_ephemeral_token (apiKey : Option String) (method : Method)
    (upstream : UpstreamBehavior) : HttpResponse × List OutboundCall :=
  if method = Method.OPTIONS then
    (⟨200, Body.empty⟩, [])
  else
    match apiKey with
    | none => (configErrorResponse, [])
    | some key =>
      if key = "" then (configErrorResponse, [])
      else
        let resp :=
          match upstream with
          | UpstreamBehavior.respond status text parsed =>
            if status = 200 then
              match parsed with
              | JsonParse.ok j => ⟨200, Body.json j⟩
              | JsonParse.fail cls msg => exceptChain cls msg
            else
              ⟨500, Body.json (Json.obj
                [ ("error", Json.str "Failed to generate token"),
                  ("details", Json.str text),
                  ("status_code", Json.num status)])⟩
          | UpstreamBehavior.raised cls msg => exceptChain cls msg
        (resp, [mkCall key])

/-- The `/api/health` handler (app.py lines 88-97); `now` is the value of
`datetime.now().isoformat()`. -/
def health_check (apiKey : Option String) (now : String) : HttpResponse :=
  ⟨200, Body.json (Json.obj
    [ ("status", Json.str "healthy"),
      ("timestamp", Json.str now),
      ("service", Json.str "openai-realtime-backend"),
      ("version", Json.str "1.0.0"),
      ("api_key_configured", Json.bool (truthy apiKey))])⟩

/-- The `/api/test` handler (app.py lines 99-110). -/
def test_endpoint (now : String) : HttpResponse :=
  ⟨200, Body.json (Json.obj
    [ ("message", Json.str "Backend is working!"),
      ("timestamp", Json.str now),
      ("endpoints", Json.obj
        [ ("health", Json.str "/api/health"),
          ("token", Json.str "/api/token"),
          ("test", Json.str "/api/test")])])⟩

/-- The `/` handler (app.py lines 112-125). -/
def index : HttpResponse :=
  ⟨200, Body.json (Json.obj
    [ ("service", Json.str "OpenAI Realtime API Backend"),
      ("status", Json.str "running"),
      ("endpoints", Json.obj
        [ ("health", Json.str "/api/health - Health check"),
          ("token", Json.str "/api/token - Get ephemeral token"),
          ("test", Json.str "/api/test - Test endpoint")]),
      ("cors", Json.str "Enabled for all origins"),
      ("deployment", Json.str "Ready for Render")])⟩

/-- The 404 error handler (app.py lines 127-132). -/
def not_found : HttpResponse :=
  ⟨404, Body.json (Json.obj
    [ ("error", Json.str "Endpoint not found"),
      ("available_endpoints", Json.arr
        [ Json.str "/", Json.str "/api/health",
          Json.str "/api/token", Json.str "/api/test"])])⟩

/-- Flask's default 405 response when a route exists but the method is not
among its declared methods. -/
def methodNotAllowed : HttpResponse := ⟨405, Body.empty⟩

/-- Flask's automatic OPTIONS response for routes that do not declare OPTIONS
themselves: 200 with an empty body. -/
def automaticOptions : HttpResponse := ⟨200, Body.empty⟩

/-- The registered route paths (app.py lines 22, 88, 99, 112). -/
def routePaths : List String := ["/", "/api/health", "/api/token", "/api/test"]

/-- Flask URL dispatch over the app's four routes.  A path matching no route
is answered by the 404 handler `not_found`; a matched path with a method not
declared for it is answered by Flask's default 405 (or automatic OPTIONS).
Only `/api/token` can attempt an outbound call. -/
def appDispatch (apiKey : Option String) (now : String)
    (upstream : UpstreamBehavior) (method : Method) (path : String) :
    HttpResponse × List OutboundCall :=
  if path = "/api/token" then
    if method = Method.GET ∨ method = Method.OPTIONS then
      get_ephemeral_token apiKey method upstream
    else (methodNotAllowed, [])
  else if path = "/api/health" then
    if method = Method.GET then (health_check apiKey now, [])
    else if method = Method.OPTIONS then (automaticOptions, [])
    else (methodNotAllowed, [])
  else if path = "/api/test" then
    if method = Method.GET then (test_endpoint now, [])
    else if method = Method.OPTIONS then (automaticOptions, [])
    else (methodNotAllowed, [])
  else if path = "/" then
    if method = Method.GET then (index, [])
    else if method = Method.OPTIONS then (automaticOptions, [])
    else (methodNotAllowed, [])
  else
    (not_found, [])

/-- Look up a key in a JSON response body. -/
def Body.lookupKey : Body → String → Option Json
  | Body.json j, k => j.lookupKey k
  | Body.empty, _ => none

/-- Follow a path of object keys through a JSON value. -/
def jsonPath (j : Json) : List String → Option Json
  | [] => some j
  | k :: ks =>
    match j.lookupKey k with
    | some v => jsonPath v ks
    | none => none

/-- C6: every OPTIONS request to /api/token returns HTTP 200 with an empty
body, regardless of whether the secret is configured, and without attempting
any outbound call. -/
theorem C6_options_preflight (apiKey : Option String) (u : UpstreamBehavior) :
    get_ephemeral_token apiKey Method.OPTIONS u = (⟨200, Body.empty⟩, []) := by
  simp [get_ephemeral_token]

/-- C2: for every GET request to /api/token, if the secret is not configured
(unset, or falsy as the empty string), the response is HTTP 500 with an error
body and no outbound call is attempted. -/
theorem C2_short_circuit (apiKey : Option String) (u : UpstreamBehavior)
    (h : truthy apiKey = false) :
    get_ephemeral_token apiKey Method.GET u = (configErrorResponse, []) ∧
    configErrorResponse.status = 500 ∧
    configErrorResponse.body.hasErrorKey = true := by
  refine ⟨?_, rfl, rfl⟩
  cases apiKey with
  | none => simp [get_ephemeral_token]
  | some s =>
    have hs : s = "" := by simpa [truthy] using h
    subst hs
    simp [get_ephemeral_token]

/-- C2 witness: with the secret unset, the concrete GET yields the 500
configuration error and an empty list of outbound calls. -/
theorem C2_short_circuit_witness :
    truthy none = false ∧
    (get_ephemeral_token none Method.GET
        (UpstreamBehavior.respond 200 "t" (JsonParse.ok Json.null)) =
      (configErrorResponse, []) ∧
     configErrorResponse.status = 500 ∧
     configErrorResponse.body.hasErrorKey = true) :=
  ⟨rfl, C2_short_circuit none
    (UpstreamBehavior.respond 200 "t" (JsonParse.ok Json.null)) rfl⟩

/-- C1 counterexample: 201 is a success status, yet with the secret configured
and the upstream completing with status 201 and a JSON body, the relay answers
500, not 200 with the body unchanged. -/
theorem C1_counterexample :
    (get_ephemeral_token (some "sk-test") Method.GET
        (UpstreamBehavior.respond 201 "created"
          (JsonParse.ok (Json.obj [("value", Json.str "tok")])))).1.status = 500 ∧
    ¬ (get_ephemeral_token (some "sk-test") Method.GET
        (UpstreamBehavior.respond 201 "created"
          (JsonParse.ok (Json.obj [("value", Json.str "tok")])))).1.status = 200 :=
  ⟨rfl, by decide⟩

/-- C1 (amended): for every GET request to /api/token with the secret
configured, if the upstream call completes with status 200 — the only status
the code treats as success — the relay returns HTTP 200 with the upstream's
JSON body unchanged. -/
theorem C1_pass_through (key text : String) (j : Json) (hk : key ≠ "") :
    get_ephemeral_token (some key) Method.GET
        (UpstreamBehavior.respond 200 text (JsonParse.ok j)) =
      (⟨200, Body.json j⟩, [mkCall key]) := by
  simp [get_ephemeral_token, hk]

/-- C1 witness: a concrete configured key and concrete 200 upstream body are
passed through unchanged. -/
theorem C1_pass_through_witness :
    ("sk" : String) ≠ "" ∧
    get_ephemeral_token (some "sk") Method.GET
        (UpstreamBehavior.respond 200 "t" (JsonParse.ok Json.null)) =
      (⟨200, Body.json Json.null⟩, [mkCall "sk"]) :=
  ⟨by decide, C1_pass_through "sk" "t" Json.null (by decide)⟩

/-- C3: for every GET request to /api/token with the secret configured, if the
upstream call completes with a non-success (non-2xx) status, the relay returns
HTTP 500 with an error body whose detail carries the upstream status code and
the upstream response body text. -/
theorem C3_upstream_rejected (key text : String) (s : Nat) (p : JsonParse)
    (hk : key ≠ "") (hs : s < 200 ∨ 300 ≤ s) :
    (get_ephemeral_token (some key) Method.GET
        (UpstreamBehavior.respond s text p)).1 =
      ⟨500, Body.json (Json.obj
        [ ("error", Json.str "Failed to generate token"),
          ("details", Json.str text),
          ("status_code", Json.num s)])⟩ ∧
    (get_ephemeral_token (some key) Method.GET
        (UpstreamBehavior.respond s text p)).1.body.lookupKey "details" =
      some (Json.str text) ∧
    (get_ephemeral_token (some key) Method.GET
        (UpstreamBehavior.respond s text p)).1.body.lookupKey "status_code" =
      some (Json.num s) ∧
    (get_ephemeral_token (some key) Method.GET
        (UpstreamBehavior.respond s text p)).1.body.hasErrorKey = true := by
  have h200 : s ≠ 200 := by omega
  simp [get_ephemeral_token, hk, h200, Body.lookupKey, Json.lookupKey,
    Body.hasErrorKey, Json.hasKey, List.lookup]

/-- C3 witness: the concrete 403 upstream rejection yields 500 with the status
code and body text in the detail. -/
theorem C3_upstream_rejected_witness :
    ("sk" : String) ≠ "" ∧ ((403 : Nat) < 200 ∨ (300 : Nat) ≤ 403) ∧
    (get_ephemeral_token (some "sk") Method.GET
        (UpstreamBehavior.respond 403 "forbidden"
          (JsonParse.fail ExcClass.otherExc "x"))).1 =
      ⟨500, Body.json (Json.obj
        [ ("error", Json.str "Failed to generate token"),
          ("details", Json.str "forbidden"),
          ("status_code", Json.num 403)])⟩ :=
  ⟨by decide, by decide,
    (C3_upstream_rejected "sk" "forbidden" 403
      (JsonParse.fail ExcClass.otherExc "x") (by decide) (by decide)).1⟩

/-- C4: the outbound call made by GET /api/token carries a 30-time-unit
timeout, and if the upstream raises the timeout exception the relay returns
HTTP 500 with the timeout-indicating error body. -/
theorem C4_timeout_bound (key msg : String) (u : UpstreamBehavior)
    (hk : key ≠ "") :
    (get_ephemeral_token (some key) Method.GET u).2 = [mkCall key] ∧
    (mkCall key).timeout = 30 ∧
    (get_ephemeral_token (some key) Method.GET
        (UpstreamBehavior.raised ExcClass.timeoutExc msg)).1 =
      ⟨500, Body.json (Json.obj [("error", Json.str "Request timeout")])⟩ := by
  refine ⟨?_, rfl, ?_⟩
  · simp [get_ephemeral_token, hk]
  · simp [get_ephemeral_token, exceptChain, hk]

/-- C4 witness: a concrete configured key with a timing-out upstream gives the
concrete timeout response, and the single outbound call has timeout 30. -/
theorem C4_timeout_bound_witness :
    ("sk" : String) ≠ "" ∧
    (get_ephemeral_token (some "sk") Method.GET
        (UpstreamBehavior.raised ExcClass.timeoutExc "slow")).2 = [mkCall "sk"] ∧
    (mkCall "sk").timeout = 30 ∧
    (get_ephemeral_token (some "sk") Method.GET
        (UpstreamBehavior.raised ExcClass.timeoutExc "slow")).1 =
      ⟨500, Body.json (Json.obj [("error", Json.str "Request timeout")])⟩ :=
  ⟨by decide, C4_timeout_bound "sk" "slow"
    (UpstreamBehavior.raised ExcClass.timeoutExc "slow") (by decide)⟩

/-- C10: with the secret configured, an upstream 200 whose body fails JSON
parsing is never passed through: whatever exception class the parse failure
raises, the relay answers HTTP 500 with an error body, and when the failure is
a plain (non-requests) exception the body is the unexpected-error one.  Hence
a 200 relay response always carries a parsed JSON body. -/
theorem C10_unparseable_200 (key text msg : String) (cls : ExcClass)
    (hk : key ≠ "") :
    (get_ephemeral_token (some key) Method.GET
        (UpstreamBehavior.respond 200 text (JsonParse.fail cls msg))).1.status = 500 ∧
    (get_ephemeral_token (some key) Method.GET
        (UpstreamBehavior.respond 200 text
          (JsonParse.fail cls msg))).1.body.hasErrorKey = true ∧
    (cls = ExcClass.otherExc →
      (get_ephemeral_token (some key) Method.GET
          (UpstreamBehavior.respond 200 text (JsonParse.fail cls msg))).1.body =
        Body.json (Json.obj [("error", Json.str ("Unexpected error: " ++ msg))])) := by
  cases cls <;>
    simp [get_ephemeral_token, exceptChain, hk, Body.hasErrorKey, Json.hasKey,
      Json.lookupKey, List.lookup]

/-- C10 witness: a concrete unparseable 200 upstream body yields the concrete
unexpected-error 500 response. -/
theorem C10_unparseable_200_witness :
    (get_ephemeral_token (some "sk") Method.GET
        (UpstreamBehavior.respond 200 "<html>"
          (JsonParse.fail ExcClass.otherExc "boom"))).1.status = 500 ∧
    (get_ephemeral_token (some "sk") Method.GET
        (UpstreamBehavior.respond 200 "<html>"
          (JsonParse.fail ExcClass.otherExc "boom"))).1.body =
      Body.json (Json.obj [("error", Json.str ("Unexpected error: " ++ "boom"))]) :=
  ⟨(C10_unparseable_200 "sk" "<html>" "boom" ExcClass.otherExc (by decide)).1,
   (C10_unparseable_200 "sk" "<html>" "boom" ExcClass.otherExc (by decide)).2.2 rfl⟩

/-- C5: for every GET request to /api/token, the response status is either 200
or 500, a 500 body always carries an `error` field, and a 200 response arises
only in the genuine success case (secret configured, upstream completed with
status 200 and a parseable body, which is passed through) — so every failure
outcome, of any kind, is surfaced as HTTP 500 with an `error` body and none is
silently recovered. -/
theorem C5_error_taxonomy (apiKey : Option String) (u : UpstreamBehavior) :
    ((get_ephemeral_token apiKey Method.GET u).1.status = 200 ∨
      ((get_ephemeral_token apiKey Method.GET u).1.status = 500 ∧
       (get_ephemeral_token apiKey Method.GET u).1.body.hasErrorKey = true)) ∧
    ((get_ephemeral_token apiKey Method.GET u).1.status = 200 →
      truthy apiKey = true ∧
      ∃ text j, u = UpstreamBehavior.respond 200 text (JsonParse.ok j) ∧
        (get_ephemeral_token apiKey Method.GET u).1.body = Body.json j) := by
  cases apiKey with
  | none =>
    simp [get_ephemeral_token, configErrorResponse, Body.hasErrorKey,
      Json.hasKey, Json.lookupKey, List.lookup]
  | some s =>
    by_cases hs : s = ""
    · subst hs
      simp [get_ephemeral_token, configErrorResponse, Body.hasErrorKey,
        Json.hasKey, Json.lookupKey, List.lookup, truthy]
    · cases u with
      | raised cls msg =>
        cases cls <;>
          simp [get_ephemeral_token, exceptChain, hs, truthy, Body.hasErrorKey,
            Json.hasKey, Json.lookupKey, List.lookup]
      | respond st text parsed =>
        by_cases h200 : st = 200
        · subst h200
          cases parsed with
          | ok j =>
            refine ⟨Or.inl ?_, fun _ => ⟨by simp [truthy, hs], text, j, rfl, ?_⟩⟩ <;>
              simp [get_ephemeral_token, hs]
          | fail cls msg =>
            cases cls <;>
              simp [get_ephemeral_token, exceptChain, hs, truthy,
                Body.hasErrorKey, Json.hasKey, Json.lookupKey, List.lookup]
        · simp [get_ephemeral_token, hs, h200, truthy, Body.hasErrorKey,
            Json.hasKey, Json.lookupKey, List.lookup]

/-- C7: every GET request to /api/health is answered by the pure handler with
HTTP 200, no outbound call, a body carrying the keys status, timestamp,
service, version and api_key_configured, the last being a boolean that is the
truthiness of the configured secret. -/
theorem C7_health_check (apiKey : Option String) (now : String)
    (u : UpstreamBehavior) :
    appDispatch apiKey now u Method.GET "/api/health" =
      (health_check apiKey now, []) ∧
    (health_check apiKey now).status = 200 ∧
    (health_check apiKey now).body.lookupKey "status" = some (Json.str "healthy") ∧
    (health_check apiKey now).body.lookupKey "timestamp" = some (Json.str now) ∧
    (health_check apiKey now).body.lookupKey "service" =
      some (Json.str "openai-realtime-backend") ∧
    (health_check apiKey now).body.lookupKey "version" = some (Json.str "1.0.0") ∧
    (health_check apiKey now).body.lookupKey "api_key_configured" =
      some (Json.bool (truthy apiKey)) := by
  refine ⟨?_, rfl, rfl, rfl, rfl, rfl, rfl⟩
  simp [appDispatch]

/-- C8: every request, by any method, to a path matching none of the four
registered routes is answered by the 404 handler, whose body lists the four
valid endpoints, and no outbound call is made. -/
theorem C8_unmatched_path (apiKey : Option String) (now : String)
    (u : UpstreamBehavior) (m : Method) (path : String)
    (h : path ∉ routePaths) :
    appDispatch apiKey now u m path = (not_found, []) ∧
    not_found.status = 404 ∧
    not_found.body.lookupKey "available_endpoints" =
      some (Json.arr [ Json.str "/", Json.str "/api/health",
        Json.str "/api/token", Json.str "/api/test"]) := by
  refine ⟨?_, rfl, rfl⟩
  simp only [routePaths, List.mem_cons, List.mem_singleton, not_or] at h
  obtain ⟨h1, h2, h3, h4⟩ := h
  simp [appDispatch, h1, h2, h3, h4]

/-- C8 witness: the concrete undefined path /nope with method GET gets the 404
body listing the four endpoints. -/
theorem C8_unmatched_path_witness :
    ("/nope" : String) ∉ routePaths ∧
    appDispatch none "ts" (UpstreamBehavior.raised ExcClass.otherExc "e")
        Method.GET "/nope" = (not_found, []) :=
  ⟨by decide,
    (C8_unmatched_path none "ts" (UpstreamBehavior.raised ExcClass.otherExc "e")
      Method.GET "/nope" (by decide)).1⟩

/-- C9: the outbound payload is the fixed hard-coded session configuration —
any two GET requests to /api/token, whatever their configured keys and
upstream behaviors, issue calls with identical payloads, every call's payload
is the constant session_config, and that constant carries session kind
realtime, model gpt-realtime, output voice marin and the fixed instructions
text. -/
theorem C9_fixed_payload (ka kb : String) (ua ub : UpstreamBehavior)
    (ha : ka ≠ "") (hb : kb ≠ "") :
    (get_ephemeral_token (some ka) Method.GET ua).2.map OutboundCall.payload =
      (get_ephemeral_token (some kb) Method.GET ub).2.map OutboundCall.payload ∧
    (get_ephemeral_token (some ka) Method.GET ua).2.map OutboundCall.payload =
      [session_config] ∧
    jsonPath session_config ["session", "type"] = some (Json.str "realtime") ∧
    jsonPath session_config ["session", "model"] = some (Json.str "gpt-realtime") ∧
    jsonPath session_config ["session", "audio", "output", "voice"] =
      some (Json.str "marin") ∧
    jsonPath session_config ["session", "instructions"] =
      some (Json.str
        "You are a helpful voice assistant. Be conversational and friendly.") := by
  refine ⟨?_, ?_, rfl, rfl, rfl, rfl⟩ <;>
    simp [get_ephemeral_token, ha, hb, mkCall]

/-- C9 witness: two concrete requests with different keys and different
upstream behaviors issue outbound calls with the same fixed payload. -/
theorem C9_fixed_payload_witness :
    ("ka" : String) ≠ "" ∧ ("kb" : String) ≠ "" ∧
    (get_ephemeral_token (some "ka") Method.GET
        (UpstreamBehavior.respond 200 "t" (JsonParse.ok Json.null))).2.map
        OutboundCall.payload =
      (get_ephemeral_token (some "kb") Method.GET
        (UpstreamBehavior.raised ExcClass.timeoutExc "slow")).2.map
        OutboundCall.payload :=
  ⟨by decide, by decide,
    (C9_fixed_payload "ka" "kb"
      (UpstreamBehavior.respond 200 "t" (JsonParse.ok Json.null))
      (UpstreamBehavior.raised ExcClass.timeoutExc "slow")
      (by decide) (by decide)).1⟩

/-- C5 witness: the concrete connection-failure outcome is surfaced as either
200 or a 500 carrying an error field (here, the 500 branch holds). -/
theorem C5_error_taxonomy_witness :
    (get_ephemeral_token (some "sk") Method.GET
        (UpstreamBehavior.raised ExcClass.connectionErrorExc "down")).1.status = 200 ∨
    ((get_ephemeral_token (some "sk") Method.GET
        (UpstreamBehavior.raised ExcClass.connectionErrorExc "down")).1.status = 500 ∧
     (get_ephemeral_token (some "sk") Method.GET
        (UpstreamBehavior.raised
          ExcClass.connectionErrorExc "down")).1.body.hasErrorKey = true) :=
  (C5_error_taxonomy (some "sk")
    (UpstreamBehavior.raised ExcClass.connectionErrorExc "down")).1
